import Mathlib

/-!
Shallow embedding of the `buffett-valuation` repository.

The repository is a single-page two-stage DCF (discounted cash flow)
valuation calculator.  The core is the `valuation` `useMemo` block of
`src/App.jsx` (lines 37-71), a pure function from the four slider
parameters to either `null` (infeasible input) or a result record whose
numeric fields are rounded with JavaScript `toFixed`.  The narrative
client retries its network call with exponential backoff
(`fetchWithRetry`, lines 74-102), and a one-route serverless proxy
(`api/generate`) forwards narrative requests to the upstream model API.

Real numbers are modelled by `ℚ` (the source computes with IEEE doubles;
the claims under study are about the exact arithmetic the code spells
out, and every concrete input used below is a small rational).
JavaScript `x.toFixed(n)` rounds to `n` decimal digits, ties away from
zero towards `+∞`, which on `ℚ` is `round (10^n * x) / 10^n` with
Mathlib's `round` (`round y = ⌊y + 1/2⌋`).
-/

/-- JavaScript `x.toFixed(2)` (used for `total`, `stage1`, `tv`,
`safetyPrice` and the chart points): round to two decimal digits. -/
def toFixed2 (x : ℚ) : ℚ := (round (100 * x) : ℤ) / 100

/-- JavaScript `x.toFixed(1)` (used for `multiple` and `tvRatio`):
round to one decimal digit. -/
def toFixed1 (x : ℚ) : ℚ := (round (10 * x) : ℤ) / 10

/-- The four input parameters (the `params` state of `App.jsx`):
`fcf` is the base free cash flow, and the three rates are entered as
percentages (`growth = 15` means 15%); the engine divides each rate by
100 before use. -/
structure ValuationParameters where
  fcf : ℚ
  growth : ℚ
  discount : ℚ
  perpetual : ℚ
deriving DecidableEq

/-- One entry of the `chartData` array pushed per loop iteration:
`\x7b year: t, fcf: parseFloat(currentFcf.toFixed(2)) \x7d`.  The source
formats the year as a string label; only its index is relevant here. -/
structure ProjectionPoint where
  year : ℕ
  fcf : ℚ
deriving DecidableEq

/-- The record returned by the `valuation` memo in the feasible case.
All numeric fields are rounded exactly as the source rounds them
(`toFixed(2)` and `toFixed(1)`). -/
structure ValuationResult where
  total : ℚ
  stage1 : ℚ
  tv : ℚ
  safetyPrice : ℚ
  multiple : ℚ
  tvRatio : ℚ
  chartData : List ProjectionPoint
deriving DecidableEq

/-- The loop variable `currentFcf` after `t` iterations of the body
`currentFcf *= (1 + g)`; `currentFcf` starts at `fcf`. -/
def currentFcf (fcf g : ℚ) : ℕ → ℚ
  | 0 => fcf
  | t + 1 => currentFcf fcf g t * (1 + g)

/-- The accumulator `stage1Sum` after the first `n` iterations of the
loop `for (let t = 1; t <= n; t++) stage1Sum += currentFcf / (1+r)^t`. -/
def stage1Sum (fcf g r : ℚ) : ℕ → ℚ
  | 0 => 0
  | n + 1 => stage1Sum fcf g r n + currentFcf fcf g (n + 1) / (1 + r) ^ (n + 1)

/-- The `chartData` array built by the loop: one point per year
`1 .. n`, holding the projected cash flow rounded to two decimals. -/
def chartPoints (fcf g : ℚ) (n : ℕ) : List ProjectionPoint :=
  (List.range n).map fun i => ⟨i + 1, toFixed2 (currentFcf fcf g (i + 1))⟩

/-- The unrounded `stage1Sum` after the full 10-year loop. -/
def s1Value (p : ValuationParameters) : ℚ :=
  stage1Sum p.fcf (p.growth / 100) (p.discount / 100) 10

/-- The unrounded `discountedTV`:
`terminalValue = (currentFcf * (1 + pg)) / (r - pg)` discounted by
`Math.pow(1 + r, 10)`. -/
def tvValue (p : ValuationParameters) : ℚ :=
  currentFcf p.fcf (p.growth / 100) 10 * (1 + p.perpetual / 100) /
      (p.discount / 100 - p.perpetual / 100) /
    (1 + p.discount / 100) ^ 10

/-- The unrounded `total = stage1Sum + discountedTV`. -/
def totalValue (p : ValuationParameters) : ℚ := s1Value p + tvValue p

/-- The result record assembled in the feasible branch of the
`valuation` memo (`App.jsx` lines 62-70), with the source's rounding
and its two division guards. -/
def valuationCore (p : ValuationParameters) : ValuationResult :=
  let total := totalValue p
  { total := toFixed2 total
    stage1 := toFixed2 (s1Value p)
    tv := toFixed2 (tvValue p)
    safetyPrice := toFixed2 (total * (7 / 10))
    multiple := if p.fcf ≠ 0 then toFixed1 (total / p.fcf) else 0
    tvRatio := if total ≠ 0 then toFixed1 (tvValue p / total * 100) else 0
    chartData := chartPoints p.fcf (p.growth / 100) 10 }

/-- The `valuation` memo: convert the three rates from percentages to
fractions, return `null` when `pg >= r`, otherwise the result record.
The Lean function is total, mirroring that the source branch never
throws. -/
def valuation (p : ValuationParameters) : Option ValuationResult :=
  if p.perpetual / 100 ≥ p.discount / 100 then none
  else some (valuationCore p)

/-- The retry wrapper `fetchWithRetry` of `App.jsx` is observed through the
number of attempts it makes, the list of waits it sleeps (in ms, in
order), and its final outcome. -/
structure RetryTrace where
  attempts : ℕ
  delays : List ℕ
  result : Option String
deriving DecidableEq

/-- Shallow embedding of `fetchWithRetry(prompt, retries, delay)`
(`App.jsx` lines 74-102).  `upstream k` is the outcome of the `fetch`
performed on the k-th attempt (counted from 0): `some text` when the
response is ok and carries the candidate text, `none` when the `try`
block throws (non-ok status or network error).  On failure with
`retries > 0` the code sleeps `delay`, then recurses with `retries - 1`
and `delay * 2`; with `retries = 0` it rethrows. -/
def fetchWithRetry (upstream : ℕ → Option String) (attempt retries delay : ℕ) :
    RetryTrace :=
  match upstream attempt, retries with
  | some text, _ => ⟨1, [], some text⟩
  | none, 0 => ⟨1, [], none⟩
  | none, r + 1 =>
    ⟨(fetchWithRetry upstream (attempt + 1) r (delay * 2)).attempts + 1,
      delay :: (fetchWithRetry upstream (attempt + 1) r (delay * 2)).delays,
      (fetchWithRetry upstream (attempt + 1) r (delay * 2)).result⟩

/-- The call site `fetchWithRetry(prompt)` uses the default arguments
`retries = 5, delay = 1000`. -/
def fetchNarrative (upstream : ℕ → Option String) : RetryTrace :=
  fetchWithRetry upstream 0 5 1000

/-- An upstream that fails on every attempt. -/
def failsForever : ℕ → Option String := fun _ => none

/-- The narrative text returned by a simulated successful upstream. -/
def narrativeText : String := "narrative"

/-- An upstream that fails on the first `k` attempts and succeeds from
attempt index `k` on. -/
def succeedsAt (k : ℕ) : ℕ → Option String :=
  fun n => if n < k then none else some narrativeText

/-- A request as seen by the serverless proxy `api/generate`
(`src/unnamed/part_000`): its HTTP method and its JSON body (kept
opaque — the proxy forwards `JSON.stringify(req.body)` unchanged). -/
structure ProxyRequest where
  method : String
  body : String
deriving DecidableEq

/-- The body of a proxy response: either one of the proxy's own
`\x7b error: msg \x7d` payloads, or the upstream's JSON body relayed
verbatim. -/
inductive ProxyBody where
  | errorPayload (msg : String)
  | upstreamJson (data : String)
deriving DecidableEq

/-- A proxy response: HTTP status plus body. -/
structure ProxyResponse where
  status : ℕ
  body : ProxyBody
deriving DecidableEq

/-- `res.status(405).json(\x7b error: 'Method Not Allowed' \x7d)`. -/
def msgMethodNotAllowed : String := "Method Not Allowed"

/-- The proxy's missing-key message (`服务器未配置 API KEY`). -/
def msgMissingKey : String := "服务器未配置 API KEY"

/-- The proxy's forwarding-failure message (`请求转发失败`). -/
def msgForwardFailed : String := "请求转发失败"

/-- Shallow embedding of the `handler` of `api/generate`
(`src/unnamed/part_000`).  `apiKey` is the configured server-held key
(`""` when unconfigured, matching the code's `if (!apiKey)` falsiness
check).  `upstream body` is the outcome of `fetch`-ing the upstream
with the forwarded body: `some (status, data)` for a JSON response with
that HTTP status, `none` when the `try` block throws. -/
def handler (apiKey : String) (upstream : String → Option (ℕ × String))
    (req : ProxyRequest) : ProxyResponse :=
  if req.method ≠ "POST" then ⟨405, .errorPayload msgMethodNotAllowed⟩
  else if apiKey = "" then ⟨500, .errorPayload msgMissingKey⟩
  else
    match upstream req.body with
    | some (status, data) => ⟨status, .upstreamJson data⟩
    | none => ⟨500, .errorPayload msgForwardFailed⟩

/-- The constant part of `API_URL` in `App.jsx` line 21, before the
interpolated `apiKey`. -/
def urlBase : String :=
  "https://generativelanguage.googleapis.com/v1beta/models/gemini-2.5-flash-preview-09-2025:generateContent?key="

/-- `API_URL` as built by `App.jsx` line 21: the upstream Google
endpoint with the client-held API key interpolated into the query
string.  `fetchWithRetry` posts directly to this URL. -/
def apiUrl (apiKey : String) : String := urlBase ++ apiKey

/-- A stand-in concrete value for the configured `VITE_GEMINI_API_KEY`. -/
def secretKey : String := "SECRET"

/-- `apiUrl secretKey`, written out. -/
def urlWithSecret : String :=
  "https://generativelanguage.googleapis.com/v1beta/models/gemini-2.5-flash-preview-09-2025:generateContent?key=SECRET"

/-- The route of the credential proxy, which `App.jsx` never contacts. -/
def proxyRoute : String := "/api/generate"

/-!  Helper lemmas about the valuation engine. -/

/-- The loop variable in closed form: `currentFcf` after `t` iterations
is `fcf * (1 + g) ^ t`. -/
theorem currentFcf_closed (fcf g : ℚ) : ∀ t, currentFcf fcf g t = fcf * (1 + g) ^ t
  | 0 => by simp [currentFcf]
  | t + 1 => by
    rw [currentFcf, currentFcf_closed fcf g t, pow_succ, mul_assoc]

/-- The stage-1 accumulator in closed form over `Finset.range`. -/
theorem stage1Sum_closed (fcf g r : ℚ) :
    ∀ n, stage1Sum fcf g r n =
      ∑ t ∈ Finset.range n, fcf * (1 + g) ^ (t + 1) / (1 + r) ^ (t + 1)
  | 0 => by simp [stage1Sum]
  | n + 1 => by
    rw [stage1Sum, stage1Sum_closed fcf g r n, Finset.sum_range_succ,
      currentFcf_closed]

/-- The stage-1 accumulator as the sum over year indices `1..n` of the
discounted loop cash flows, exactly as the loop accumulates them. -/
theorem stage1Sum_Icc (fcf g r : ℚ) :
    ∀ n, stage1Sum fcf g r n =
      ∑ t ∈ Finset.Icc 1 n, currentFcf fcf g t / (1 + r) ^ t
  | 0 => by simp [stage1Sum]
  | n + 1 => by
    rw [stage1Sum, stage1Sum_Icc fcf g r n,
      Finset.sum_Icc_succ_top (Nat.le_add_left 1 n)]

/-- `currentFcf` is linear in the base cash flow. -/
theorem currentFcf_smul (k fcf g : ℚ) :
    ∀ t, currentFcf (k * fcf) g t = k * currentFcf fcf g t
  | 0 => rfl
  | t + 1 => by
    rw [currentFcf, currentFcf, currentFcf_smul k fcf g t, mul_assoc]

/-- `stage1Sum` is linear in the base cash flow. -/
theorem stage1Sum_smul (k fcf g r : ℚ) :
    ∀ n, stage1Sum (k * fcf) g r n = k * stage1Sum fcf g r n
  | 0 => by simp [stage1Sum]
  | n + 1 => by
    rw [stage1Sum, stage1Sum, stage1Sum_smul k fcf g r n, currentFcf_smul,
      mul_add, mul_div_assoc]

/-- The unrounded total in closed form. -/
theorem totalValue_closed (p : ValuationParameters) :
    totalValue p =
      (∑ t ∈ Finset.range 10,
          p.fcf * (1 + p.growth / 100) ^ (t + 1) / (1 + p.discount / 100) ^ (t + 1)) +
        p.fcf * (1 + p.growth / 100) ^ 10 * (1 + p.perpetual / 100) /
          ((p.discount / 100 - p.perpetual / 100) * (1 + p.discount / 100) ^ 10) := by
  rw [totalValue, s1Value, stage1Sum_closed, tvValue, currentFcf_closed, div_div]

/-- Rounding a sum versus summing the roundings: `toFixed2` commutes
with addition up to one cent. -/
theorem abs_toFixed2_add_sub_le (a b : ℚ) :
    |toFixed2 (a + b) - (toFixed2 a + toFixed2 b)| ≤ 1 / 100 := by
  have ha : |100 * a - (round (100 * a) : ℚ)| ≤ 1 / 2 := abs_sub_round (100 * a)
  have hb : |100 * b - (round (100 * b) : ℚ)| ≤ 1 / 2 := abs_sub_round (100 * b)
  have hc : |100 * (a + b) - (round (100 * (a + b)) : ℚ)| ≤ 1 / 2 :=
    abs_sub_round (100 * (a + b))
  set za : ℤ := round (100 * a)
  set zb : ℤ := round (100 * b)
  set zc : ℤ := round (100 * (a + b))
  have hq : |((zc - za - zb : ℤ) : ℚ)| ≤ 3 / 2 := by
    have hrepr : ((zc - za - zb : ℤ) : ℚ) =
        (100 * a - (za : ℚ)) + (100 * b - (zb : ℚ)) - (100 * (a + b) - (zc : ℚ)) := by
      push_cast
      ring
    rw [hrepr]
    calc |(100 * a - (za : ℚ)) + (100 * b - (zb : ℚ)) - (100 * (a + b) - (zc : ℚ))|
        ≤ |(100 * a - (za : ℚ)) + (100 * b - (zb : ℚ))| + |100 * (a + b) - (zc : ℚ)| :=
          abs_sub _ _
      _ ≤ |100 * a - (za : ℚ)| + |100 * b - (zb : ℚ)| + |100 * (a + b) - (zc : ℚ)| := by
          have := abs_add (100 * a - (za : ℚ)) (100 * b - (zb : ℚ))
          linarith
      _ ≤ 3 / 2 := by linarith
  have hz : |zc - za - zb| ≤ 1 := by
    have h2 : ((|zc - za - zb| : ℤ) : ℚ) < 2 := by
      rw [Int.cast_abs]
      linarith
    have h2i : |zc - za - zb| < 2 := by exact_mod_cast h2
    omega
  have hrw : toFixed2 (a + b) - (toFixed2 a + toFixed2 b) =
      ((zc - za - zb : ℤ) : ℚ) / 100 := by
    unfold toFixed2
    push_cast
    ring
  rw [hrw, abs_div, abs_of_pos (show (0 : ℚ) < 100 by norm_num)]
  rw [div_le_div_iff₀ (by norm_num) (by norm_num), ← Int.cast_abs]
  have : ((|zc - za - zb| : ℤ) : ℚ) ≤ 1 := by exact_mod_cast hz
  linarith


/-!  Helper lemmas about the retry wrapper. -/

/-- Every call to `fetchWithRetry` makes at least one attempt. -/
theorem fetchWithRetry_attempts_pos (u : ℕ → Option String) (n a d : ℕ) :
    1 ≤ (fetchWithRetry u a n d).attempts := by
  induction n generalizing a d with
  | zero => unfold fetchWithRetry; cases u a <;> simp
  | succ r ih => unfold fetchWithRetry; cases u a <;> simp

/-- `fetchWithRetry` with `n` retries left makes at most `n + 1`
attempts. -/
theorem fetchWithRetry_attempts_le (u : ℕ → Option String) (n a d : ℕ) :
    (fetchWithRetry u a n d).attempts ≤ n + 1 := by
  induction n generalizing a d with
  | zero => unfold fetchWithRetry; cases u a <;> simp
  | succ r ih =>
    unfold fetchWithRetry
    cases u a with
    | some t => simp
    | none =>
      simp only []
      have := ih (a + 1) (d * 2)
      omega

/-- The waits slept by `fetchWithRetry` follow the doubling schedule:
the k-th wait (from 0) is `d * 2 ^ k`, and there is one wait between
consecutive attempts. -/
theorem fetchWithRetry_delays (u : ℕ → Option String) (n a d : ℕ) :
    (fetchWithRetry u a n d).delays =
      (List.range ((fetchWithRetry u a n d).attempts - 1)).map fun i => d * 2 ^ i := by
  induction n generalizing a d with
  | zero => unfold fetchWithRetry; cases u a <;> simp
  | succ r ih =>
    unfold fetchWithRetry
    cases u a with
    | some t => simp
    | none =>
      simp only []
      have h1 : 1 ≤ (fetchWithRetry u (a + 1) r (d * 2)).attempts :=
        fetchWithRetry_attempts_pos u r (a + 1) (d * 2)
      obtain ⟨m, hm⟩ : ∃ m, (fetchWithRetry u (a + 1) r (d * 2)).attempts = m + 1 :=
        ⟨(fetchWithRetry u (a + 1) r (d * 2)).attempts - 1, by omega⟩
      have hd := ih (a + 1) (d * 2)
      rw [hm] at hd
      simp only [hm, Nat.add_sub_cancel]
      rw [hd, List.range_succ_eq_map, List.map_cons, List.map_map]
      refine List.cons_eq_cons.mpr ⟨by simp, ?_⟩
      refine List.map_congr_left fun i hi => ?_
      simp [Function.comp, pow_succ]
      ring

/-- Rounding fixes zero. -/
theorem toFixed2_zero : toFixed2 0 = 0 := by
  simp [toFixed2]

/-!  Claim theorems. -/

/-- Claim C1: for every feasible parameter set (terminal growth below
discount rate after the division of all three rates by 100), the engine
returns a result whose stage-1 figure is the rounding of the sum over
year indices 1..10 of the recurrence-compounded cash flows
(`cashFlow_0 = fcf`, `cashFlow_t = cashFlow_(t-1) * (1+g)`) discounted
by `(1+r)^t`, and whose terminal figure is the rounding of
`cashFlow_10 * (1+pg) / (r - pg) / (1+r)^10`; in closed form stage 1 is
`∑ fcf * (1+g)^t / (1+r)^t`. -/
theorem stage1_and_terminal_formula (p : ValuationParameters)
    (h : p.perpetual / 100 < p.discount / 100) :
    valuation p = some (valuationCore p) ∧
    currentFcf p.fcf (p.growth / 100) 0 = p.fcf ∧
    (∀ t : ℕ, currentFcf p.fcf (p.growth / 100) (t + 1) =
      currentFcf p.fcf (p.growth / 100) t * (1 + p.growth / 100)) ∧
    s1Value p = ∑ t ∈ Finset.Icc 1 10,
      currentFcf p.fcf (p.growth / 100) t / (1 + p.discount / 100) ^ t ∧
    (valuationCore p).stage1 = toFixed2 (s1Value p) ∧
    (valuationCore p).tv = toFixed2 (currentFcf p.fcf (p.growth / 100) 10 *
      (1 + p.perpetual / 100) / (p.discount / 100 - p.perpetual / 100) /
      (1 + p.discount / 100) ^ 10) ∧
    s1Value p = ∑ t ∈ Finset.range 10,
      p.fcf * (1 + p.growth / 100) ^ (t + 1) / (1 + p.discount / 100) ^ (t + 1) := by
  refine ⟨?_, rfl, fun t => rfl, stage1Sum_Icc _ _ _ 10, rfl, rfl,
    stage1Sum_closed _ _ _ 10⟩
  unfold valuation
  rw [if_neg (not_le.mpr h)]

/-- Witness for C1 at the default parameters. -/
theorem stage1_and_terminal_formula_witness :
    ((3 : ℚ) / 100 < 10 / 100) ∧
    (valuation ⟨10, 15, 10, 3⟩ = some (valuationCore ⟨10, 15, 10, 3⟩) ∧
      currentFcf 10 (15 / 100) 0 = 10 ∧
      (∀ t : ℕ, currentFcf 10 (15 / 100) (t + 1) =
        currentFcf 10 (15 / 100) t * (1 + 15 / 100)) ∧
      s1Value ⟨10, 15, 10, 3⟩ = ∑ t ∈ Finset.Icc 1 10,
        currentFcf 10 (15 / 100) t / (1 + 10 / 100) ^ t ∧
      (valuationCore ⟨10, 15, 10, 3⟩).stage1 = toFixed2 (s1Value ⟨10, 15, 10, 3⟩) ∧
      (valuationCore ⟨10, 15, 10, 3⟩).tv = toFixed2 (currentFcf 10 (15 / 100) 10 *
        (1 + 3 / 100) / (10 / 100 - 3 / 100) / (1 + 10 / 100) ^ 10) ∧
      s1Value ⟨10, 15, 10, 3⟩ = ∑ t ∈ Finset.range 10,
        10 * (1 + 15 / 100) ^ (t + 1) / (1 + 10 / 100) ^ (t + 1)) :=
  ⟨by norm_num, stage1_and_terminal_formula ⟨10, 15, 10, 3⟩ (by norm_num)⟩

/-- Claim C2: a result exists iff `pg < r` after the percentage
conversion; with `pg ≥ r` the sentinel `none` is returned whatever the
other parameters are, and the embedded function is total (no
exception). -/
theorem valuation_some_iff_feasible (p : ValuationParameters) :
    ((valuation p).isSome ↔ p.perpetual / 100 < p.discount / 100) ∧
    (p.perpetual / 100 ≥ p.discount / 100 → valuation p = none) ∧
    (p.perpetual / 100 < p.discount / 100 →
      valuation p = some (valuationCore p)) := by
  unfold valuation
  by_cases h : p.perpetual / 100 ≥ p.discount / 100
  · rw [if_pos h]
    exact ⟨by simpa using not_lt.mpr h, fun _ => rfl,
      fun hlt => absurd hlt (not_lt.mpr h)⟩
  · rw [if_neg h]
    exact ⟨by simpa using lt_of_not_ge h, fun hge => absurd hge h, fun _ => rfl⟩

/-- Witness for C2: the default parameters are feasible and produce a
result; swapping so that `pg ≥ r` produces `none`. -/
theorem valuation_some_iff_feasible_witness :
    (((valuation ⟨10, 15, 10, 3⟩).isSome ↔ (3 : ℚ) / 100 < 10 / 100) ∧
      ((3 : ℚ) / 100 ≥ 10 / 100 → valuation ⟨10, 15, 10, 3⟩ = none) ∧
      ((3 : ℚ) / 100 < 10 / 100 →
        valuation ⟨10, 15, 10, 3⟩ = some (valuationCore ⟨10, 15, 10, 3⟩))) ∧
    (((valuation ⟨10, 15, 10, 10⟩).isSome ↔ (10 : ℚ) / 100 < 10 / 100) ∧
      ((10 : ℚ) / 100 ≥ 10 / 100 → valuation ⟨10, 15, 10, 10⟩ = none) ∧
      ((10 : ℚ) / 100 < 10 / 100 →
        valuation ⟨10, 15, 10, 10⟩ = some (valuationCore ⟨10, 15, 10, 10⟩))) :=
  ⟨valuation_some_iff_feasible ⟨10, 15, 10, 3⟩,
    valuation_some_iff_feasible ⟨10, 15, 10, 10⟩⟩

/-- Claim C3, counterexample to the rounded reading: at
`fcf = 1, growth = 0%, discount = 7%, perpetual = 0%` (feasible) the
result fields are `total = 14.29` but `stage1 + tv = 7.02 + 7.26 =
14.28`, so the `totalIntrinsicValue` field does not equal the sum of
the `stage1PresentValue` and `terminalPresentValue` fields after the
engine's per-field rounding. -/
theorem rounded_total_not_additive :
    valuation ⟨1, 0, 7, 0⟩ = some (valuationCore ⟨1, 0, 7, 0⟩) ∧
    (valuationCore ⟨1, 0, 7, 0⟩).total = 1429 / 100 ∧
    (valuationCore ⟨1, 0, 7, 0⟩).stage1 = 351 / 50 ∧
    (valuationCore ⟨1, 0, 7, 0⟩).tv = 363 / 50 ∧
    (valuationCore ⟨1, 0, 7, 0⟩).total ≠
      (valuationCore ⟨1, 0, 7, 0⟩).stage1 + (valuationCore ⟨1, 0, 7, 0⟩).tv := by
  norm_num [valuation, valuationCore, totalValue, s1Value, tvValue, stage1Sum,
    currentFcf, toFixed2, round_eq]

/-- Claim C3 (amended): for every feasible parameter set the unrounded
total is exactly `stage1 + terminal`, and after the per-field rounding
the `total` field matches `stage1 + tv` up to at most one cent
(`0.01`). -/
theorem total_is_sum_up_to_rounding (p : ValuationParameters)
    (h : p.perpetual / 100 < p.discount / 100) :
    totalValue p = s1Value p + tvValue p ∧
    |(valuationCore p).total -
      ((valuationCore p).stage1 + (valuationCore p).tv)| ≤ 1 / 100 :=
  ⟨rfl, abs_toFixed2_add_sub_le (s1Value p) (tvValue p)⟩

/-- Witness for C3 (amended) at the default parameters. -/
theorem total_is_sum_up_to_rounding_witness :
    ((3 : ℚ) / 100 < 10 / 100) ∧
    (totalValue ⟨10, 15, 10, 3⟩ = s1Value ⟨10, 15, 10, 3⟩ + tvValue ⟨10, 15, 10, 3⟩ ∧
      |(valuationCore ⟨10, 15, 10, 3⟩).total -
        ((valuationCore ⟨10, 15, 10, 3⟩).stage1 +
          (valuationCore ⟨10, 15, 10, 3⟩).tv)| ≤ 1 / 100) :=
  ⟨by norm_num, total_is_sum_up_to_rounding ⟨10, 15, 10, 3⟩ (by norm_num)⟩

/-- Claim C4: for every feasible parameter set, `fcf = 0` forces all
ten chart cash flows to 0, a zero total and a `multiple` reported as 0
(the `fcf !== 0` guard takes the 0 branch); and whenever the unrounded
total is 0 the `total !== 0` guard reports `tvRatio = 0`. -/
theorem zero_guards (p : ValuationParameters)
    (h : p.perpetual / 100 < p.discount / 100) :
    (p.fcf = 0 →
      valuation p = some (valuationCore p) ∧
      (valuationCore p).chartData.length = 10 ∧
      (∀ pt ∈ (valuationCore p).chartData, pt.fcf = 0) ∧
      (valuationCore p).total = 0 ∧
      (valuationCore p).multiple = 0) ∧
    (totalValue p = 0 → (valuationCore p).tvRatio = 0) := by
  constructor
  · intro hfcf
    have hc : ∀ t, currentFcf p.fcf (p.growth / 100) t = 0 := fun t => by
      rw [currentFcf_closed, hfcf, zero_mul]
    have hs : s1Value p = 0 := by
      rw [s1Value, stage1Sum_closed]
      exact Finset.sum_eq_zero fun t _ => by rw [hfcf, zero_mul, zero_div]
    have htv : tvValue p = 0 := by
      rw [tvValue, hc, zero_mul, zero_div, zero_div]
    have htot : totalValue p = 0 := by rw [totalValue, hs, htv, add_zero]
    refine ⟨?_, ?_, ?_, ?_, ?_⟩
    · unfold valuation
      rw [if_neg (not_le.mpr h)]
    · simp [valuationCore, chartPoints]
    · intro pt hpt
      rw [show (valuationCore p).chartData = chartPoints p.fcf (p.growth / 100) 10
          from rfl, chartPoints, List.mem_map] at hpt
      obtain ⟨i, _, rfl⟩ := hpt
      show toFixed2 (currentFcf p.fcf (p.growth / 100) (i + 1)) = 0
      rw [hc, toFixed2_zero]
    · show toFixed2 (totalValue p) = 0
      rw [htot, toFixed2_zero]
    · show (if p.fcf ≠ 0 then toFixed1 (totalValue p / p.fcf) else 0) = 0
      rw [if_neg (by simp [hfcf])]
  · intro htot
    show (if totalValue p ≠ 0 then toFixed1 (tvValue p / totalValue p * 100) else 0) = 0
    rw [if_neg (by simp [htot])]

/-- Witness for C4: `fcf = 0` with the default rates. -/
theorem zero_guards_witness :
    ((3 : ℚ) / 100 < 10 / 100) ∧
    (valuationCore ⟨0, 15, 10, 3⟩).total = 0 ∧
    (valuationCore ⟨0, 15, 10, 3⟩).multiple = 0 ∧
    (∀ pt ∈ (valuationCore ⟨0, 15, 10, 3⟩).chartData, pt.fcf = 0) :=
  ⟨by norm_num,
    ((zero_guards ⟨0, 15, 10, 3⟩ (by norm_num)).1 rfl).2.2.2.1,
    ((zero_guards ⟨0, 15, 10, 3⟩ (by norm_num)).1 rfl).2.2.2.2,
    ((zero_guards ⟨0, 15, 10, 3⟩ (by norm_num)).1 rfl).2.2.1⟩

/-- Claim C6: the concrete scenario `fcf = 10` with rates 15%, 10%, 3%
(fractional form 0.15, 0.10, 0.03) is feasible; the projection has 10
points carrying years 1..10 in order; the year-1 point holds 11.5; the
total exceeds the stage-1 present value, which is positive (both for
the unrounded values and for the rounded fields); and the terminal
ratio lies strictly between 0 and 100. -/
theorem concrete_scenario_valuation :
    valuation ⟨10, 15, 10, 3⟩ = some (valuationCore ⟨10, 15, 10, 3⟩) ∧
    (valuationCore ⟨10, 15, 10, 3⟩).chartData.length = 10 ∧
    (valuationCore ⟨10, 15, 10, 3⟩).chartData.map ProjectionPoint.year =
      [1, 2, 3, 4, 5, 6, 7, 8, 9, 10] ∧
    (valuationCore ⟨10, 15, 10, 3⟩).chartData.head? = some ⟨1, 23 / 2⟩ ∧
    s1Value ⟨10, 15, 10, 3⟩ < totalValue ⟨10, 15, 10, 3⟩ ∧
    0 < s1Value ⟨10, 15, 10, 3⟩ ∧
    (valuationCore ⟨10, 15, 10, 3⟩).stage1 < (valuationCore ⟨10, 15, 10, 3⟩).total ∧
    0 < (valuationCore ⟨10, 15, 10, 3⟩).stage1 ∧
    0 < (valuationCore ⟨10, 15, 10, 3⟩).tvRatio ∧
    (valuationCore ⟨10, 15, 10, 3⟩).tvRatio < 100 := by
  refine ⟨?_, ?_, ?_, ?_, ?_, ?_, ?_, ?_, ?_, ?_⟩ <;>
    norm_num [valuation, valuationCore, totalValue, s1Value, tvValue, stage1Sum,
      currentFcf, toFixed2, toFixed1, round_eq, chartPoints, List.range_succ]

/-- Claim C5 (amended): with `fcf > 0` and all rates above -100%
(`pg > -100`, and `g ≥ -100` resp. `g > -100`), strictly increasing the
growth rate strictly increases the unrounded total, and strictly
increasing the discount rate (keeping the set feasible) strictly
decreases it.  Below -100% growth the direction reverses (see the
counterexample). -/
theorem monotone_growth_discount :
    (∀ fcf g₁ g₂ d pg : ℚ, 0 < fcf → -100 < pg → pg < d → -100 ≤ g₁ → g₁ < g₂ →
      totalValue ⟨fcf, g₁, d, pg⟩ < totalValue ⟨fcf, g₂, d, pg⟩) ∧
    (∀ fcf g d₁ d₂ pg : ℚ, 0 < fcf → -100 < pg → -100 < g → pg < d₁ → d₁ < d₂ →
      totalValue ⟨fcf, g, d₂, pg⟩ < totalValue ⟨fcf, g, d₁, pg⟩) := by
  constructor
  · intro fcf g₁ g₂ d pg hfcf hpg hfeas hg₁ hg
    rw [totalValue_closed, totalValue_closed]
    have hx0 : (0 : ℚ) ≤ 1 + g₁ / 100 := by linarith
    have hx : 1 + g₁ / 100 < 1 + g₂ / 100 := by linarith
    have h1q : (0 : ℚ) < 1 + pg / 100 := by linarith
    have h1r : (0 : ℚ) < 1 + d / 100 := by linarith
    have hD : (0 : ℚ) < (d / 100 - pg / 100) * (1 + d / 100) ^ 10 :=
      mul_pos (by linarith) (pow_pos h1r 10)
    refine add_lt_add
      (Finset.sum_lt_sum_of_nonempty (Finset.nonempty_range_iff.mpr (by norm_num))
        fun t _ => ?_) ?_
    · exact (div_lt_div_iff_of_pos_right (pow_pos h1r (t + 1))).mpr
        (mul_lt_mul_of_pos_left (pow_lt_pow_left₀ hx hx0 (Nat.succ_ne_zero t)) hfcf)
    · exact (div_lt_div_iff_of_pos_right hD).mpr
        (mul_lt_mul_of_pos_right
          (mul_lt_mul_of_pos_left (pow_lt_pow_left₀ hx hx0 (by norm_num)) hfcf) h1q)
  · intro fcf g d₁ d₂ pg hfcf hpg hg hfeas hd
    rw [totalValue_closed, totalValue_closed]
    have hx : (0 : ℚ) < 1 + g / 100 := by linarith
    have h1r₁ : (0 : ℚ) < 1 + d₁ / 100 := by linarith
    have hr12 : 1 + d₁ / 100 < 1 + d₂ / 100 := by linarith
    have hD₁ : (0 : ℚ) < (d₁ / 100 - pg / 100) * (1 + d₁ / 100) ^ 10 :=
      mul_pos (by linarith) (pow_pos h1r₁ 10)
    have hDlt : (d₁ / 100 - pg / 100) * (1 + d₁ / 100) ^ 10 <
        (d₂ / 100 - pg / 100) * (1 + d₂ / 100) ^ 10 := by
      calc (d₁ / 100 - pg / 100) * (1 + d₁ / 100) ^ 10
          < (d₂ / 100 - pg / 100) * (1 + d₁ / 100) ^ 10 :=
            mul_lt_mul_of_pos_right (by linarith) (pow_pos h1r₁ 10)
        _ < (d₂ / 100 - pg / 100) * (1 + d₂ / 100) ^ 10 :=
            mul_lt_mul_of_pos_left (pow_lt_pow_left₀ hr12 h1r₁.le (by norm_num))
              (by linarith)
    refine add_lt_add
      (Finset.sum_lt_sum_of_nonempty (Finset.nonempty_range_iff.mpr (by norm_num))
        fun t _ => ?_) ?_
    · exact div_lt_div_of_pos_left (mul_pos hfcf (pow_pos hx (t + 1)))
        (pow_pos h1r₁ (t + 1)) (pow_lt_pow_left₀ hr12 h1r₁.le (Nat.succ_ne_zero t))
    · exact div_lt_div_of_pos_left
        (mul_pos (mul_pos hfcf (pow_pos hx 10)) (by linarith)) hD₁ hDlt

/-- Claim C5, counterexample to the unrestricted statement: at
`fcf = 1 > 0, discount = 10, perpetual = 3` (feasible), raising the
growth rate from -210% to -200% strictly DEcreases the unrounded total
(`103/7 ≈ 14.71` drops to `≈ 5.38`). -/
theorem monotone_growth_counterexample :
    (0 : ℚ) < 1 ∧ (3 : ℚ) / 100 < 10 / 100 ∧ (-210 : ℚ) < -200 ∧
    totalValue ⟨1, -210, 10, 3⟩ = 103 / 7 ∧
    totalValue ⟨1, -200, 10, 3⟩ < totalValue ⟨1, -210, 10, 3⟩ := by
  norm_num [totalValue, s1Value, tvValue, stage1Sum, currentFcf]

/-- Witness for C5 (amended), both directions, at the default
parameters. -/
theorem monotone_growth_discount_witness :
    ((0 : ℚ) < 10 ∧ (-100 : ℚ) < 3 ∧ (3 : ℚ) < 10 ∧ (-100 : ℚ) ≤ 15 ∧ (15 : ℚ) < 16 ∧
      totalValue ⟨10, 15, 10, 3⟩ < totalValue ⟨10, 16, 10, 3⟩) ∧
    ((0 : ℚ) < 10 ∧ (-100 : ℚ) < 3 ∧ (-100 : ℚ) < 15 ∧ (3 : ℚ) < 10 ∧ (10 : ℚ) < 11 ∧
      totalValue ⟨10, 15, 11, 3⟩ < totalValue ⟨10, 15, 10, 3⟩) :=
  ⟨⟨by norm_num, by norm_num, by norm_num, by norm_num, by norm_num,
      monotone_growth_discount.1 10 15 16 10 3 (by norm_num) (by norm_num)
        (by norm_num) (by norm_num) (by norm_num)⟩,
    ⟨by norm_num, by norm_num, by norm_num, by norm_num, by norm_num,
      monotone_growth_discount.2 10 15 10 11 3 (by norm_num) (by norm_num)
        (by norm_num) (by norm_num) (by norm_num)⟩⟩

/-- Claim C7 (amended): starting from the call-site defaults
(`retries = 5, delay = 1000`), `fetchWithRetry` makes between 1 and 6
attempts in total (one initial call plus up to 5 retries), and the k-th
wait between attempts is `1000 * 2^k` ms (1s, 2s, 4s, 8s, 16s); an
upstream failing 4 times then succeeding on the 5th attempt yields the
text after exactly 4 waits of 1s, 2s, 4s, 8s; an upstream failing on
every attempt yields the failure after 6 attempts and all 5 waits. -/
theorem retry_policy :
    (∀ u : ℕ → Option String,
      1 ≤ (fetchNarrative u).attempts ∧
      (fetchNarrative u).attempts ≤ 6 ∧
      (fetchNarrative u).delays =
        (List.range ((fetchNarrative u).attempts - 1)).map fun i => 1000 * 2 ^ i) ∧
    fetchNarrative (succeedsAt 4) =
      ⟨5, [1000, 2000, 4000, 8000], some narrativeText⟩ ∧
    fetchNarrative failsForever =
      ⟨6, [1000, 2000, 4000, 8000, 16000], none⟩ := by
  refine ⟨fun u => ⟨fetchWithRetry_attempts_pos u 5 0 1000,
    fetchWithRetry_attempts_le u 5 0 1000, fetchWithRetry_delays u 5 0 1000⟩, ?_, ?_⟩
  · rfl
  · rfl

/-- Claim C7, counterexample to the as-stated retry budget: the
upstream `succeedsAt 5` fails on each of the first five attempts
(indices 0..4), yet the code still returns the narrative — a sixth
attempt is made (`attempts = 6`), contradicting both "up to 5 attempts
in total" and "an upstream that fails all 5 attempts yields the failure
with no further attempts made". -/
theorem retry_budget_counterexample :
    succeedsAt 5 0 = none ∧ succeedsAt 5 1 = none ∧ succeedsAt 5 2 = none ∧
    succeedsAt 5 3 = none ∧ succeedsAt 5 4 = none ∧
    (fetchNarrative (succeedsAt 5)).result = some narrativeText ∧
    (fetchNarrative (succeedsAt 5)).attempts = 6 :=
  ⟨rfl, rfl, rfl, rfl, rfl, rfl, rfl⟩

/-- The sentinel for an unconfigured server-held key (`!apiKey`). -/
def noKey : String := ""

/-- Claim C8: the proxy handler returns 405 for every non-POST request;
a POST with no configured key returns 500 without the upstream being
consulted (the result is the same for every upstream); otherwise the
upstream is called on the forwarded request body and its status and
JSON body are relayed verbatim, with 500 returned when forwarding
itself fails. -/
theorem proxy_handler_contract :
    (∀ (key : String) (u : String → Option (ℕ × String)) (req : ProxyRequest),
      req.method ≠ "POST" →
        handler key u req = ⟨405, .errorPayload msgMethodNotAllowed⟩) ∧
    (∀ (u : String → Option (ℕ × String)) (req : ProxyRequest),
      req.method = "POST" →
        handler noKey u req = ⟨500, .errorPayload msgMissingKey⟩) ∧
    (∀ (key : String) (u : String → Option (ℕ × String)) (req : ProxyRequest)
      (s : ℕ) (data : String), key ≠ noKey → req.method = "POST" →
        u req.body = some (s, data) →
        handler key u req = ⟨s, .upstreamJson data⟩) ∧
    (∀ (key : String) (u : String → Option (ℕ × String)) (req : ProxyRequest),
      key ≠ noKey → req.method = "POST" → u req.body = none →
        handler key u req = ⟨500, .errorPayload msgForwardFailed⟩) := by
  refine ⟨?_, ?_, ?_, ?_⟩
  · intro key u req hm
    simp [handler, hm]
  · intro u req hm
    simp [handler, hm, noKey]
  · intro key u req s data hk hm hu
    simp only [noKey] at hk
    simp [handler, hm, hk, hu]
  · intro key u req hk hm hu
    simp only [noKey] at hk
    simp [handler, hm, hk, hu]

/-- A POST request fixture for the proxy. -/
def postRequest : ProxyRequest := { method := "POST", body := "narrative-payload" }

/-- A GET request fixture for the proxy. -/
def getRequest : ProxyRequest := { method := "GET", body := "narrative-payload" }

/-- An upstream fixture echoing the forwarded body with status 200. -/
def upstreamOk : String → Option (ℕ × String) := fun b => some (200, b)

/-- An upstream fixture that is unreachable. -/
def upstreamDown : String → Option (ℕ × String) := fun _ => none

/-- Witness for C8 on concrete fixtures. -/
theorem proxy_handler_contract_witness :
    handler secretKey upstreamOk getRequest =
      ⟨405, .errorPayload msgMethodNotAllowed⟩ ∧
    handler noKey upstreamOk postRequest = ⟨500, .errorPayload msgMissingKey⟩ ∧
    handler secretKey upstreamOk postRequest =
      ⟨200, .upstreamJson postRequest.body⟩ ∧
    handler secretKey upstreamDown postRequest =
      ⟨500, .errorPayload msgForwardFailed⟩ :=
  ⟨proxy_handler_contract.1 secretKey upstreamOk getRequest (by decide),
    proxy_handler_contract.2.1 upstreamOk postRequest rfl,
    proxy_handler_contract.2.2.1 secretKey upstreamOk postRequest 200
      postRequest.body (by decide) rfl rfl,
    proxy_handler_contract.2.2.2 secretKey upstreamDown postRequest
      (by decide) rfl rfl⟩

set_option maxRecDepth 4000 in
/-- Claim C9 (the code contradicts it): `App.jsx` builds `API_URL` by
interpolating the client-held `VITE_GEMINI_API_KEY` into the upstream
Google endpoint URL, and `fetchWithRetry` posts straight to that URL —
the request is not routed through the credential proxy and the secret
occurs verbatim inside the request URL. -/
theorem api_key_embedded_in_client_url :
    apiUrl secretKey = urlWithSecret ∧
    secretKey.data <:+: (apiUrl secretKey).data ∧
    apiUrl secretKey ≠ proxyRoute :=
  ⟨rfl, by decide, by decide⟩

/-- Claim C10: replacing the base cash flow by `k * fcf` (with the
rates unchanged) scales the unrounded stage-1, terminal, total and
safety-margin values by exactly `k`, and leaves the `multiple` and
`tvRatio` fields unchanged whenever the zero-guards are not
triggered. -/
theorem scaling_in_base_cash_flow (p : ValuationParameters) (k : ℚ)
    (hk : 0 ≤ k) (h : p.perpetual / 100 < p.discount / 100) :
    s1Value ⟨k * p.fcf, p.growth, p.discount, p.perpetual⟩ = k * s1Value p ∧
    tvValue ⟨k * p.fcf, p.growth, p.discount, p.perpetual⟩ = k * tvValue p ∧
    totalValue ⟨k * p.fcf, p.growth, p.discount, p.perpetual⟩ = k * totalValue p ∧
    totalValue ⟨k * p.fcf, p.growth, p.discount, p.perpetual⟩ * (7 / 10) =
      k * (totalValue p * (7 / 10)) ∧
    (0 < k → p.fcf ≠ 0 →
      (valuationCore ⟨k * p.fcf, p.growth, p.discount, p.perpetual⟩).multiple =
        (valuationCore p).multiple) ∧
    (0 < k → totalValue p ≠ 0 →
      (valuationCore ⟨k * p.fcf, p.growth, p.discount, p.perpetual⟩).tvRatio =
        (valuationCore p).tvRatio) := by
  have hs : s1Value ⟨k * p.fcf, p.growth, p.discount, p.perpetual⟩ =
      k * s1Value p := stage1Sum_smul k p.fcf _ _ 10
  have htv : tvValue ⟨k * p.fcf, p.growth, p.discount, p.perpetual⟩ =
      k * tvValue p := by
    show currentFcf (k * p.fcf) (p.growth / 100) 10 * (1 + p.perpetual / 100) /
        (p.discount / 100 - p.perpetual / 100) / (1 + p.discount / 100) ^ 10 =
      k * tvValue p
    rw [currentFcf_smul, tvValue]
    ring
  have htot : totalValue ⟨k * p.fcf, p.growth, p.discount, p.perpetual⟩ =
      k * totalValue p := by
    simp only [totalValue]
    rw [hs, htv]
    ring
  refine ⟨hs, htv, htot, by rw [htot]; ring, ?_, ?_⟩
  · intro hk0 hfcf
    have h1 : k * p.fcf ≠ 0 := mul_ne_zero hk0.ne' hfcf
    simp only [valuationCore]
    rw [if_pos h1, if_pos hfcf, htot, mul_div_mul_left _ _ hk0.ne']
  · intro hk0 htot0
    have h1 : totalValue ⟨k * p.fcf, p.growth, p.discount, p.perpetual⟩ ≠ 0 := by
      rw [htot]
      exact mul_ne_zero hk0.ne' htot0
    simp only [valuationCore]
    rw [if_pos h1, if_pos htot0, htot, htv, mul_div_mul_left _ _ hk0.ne']

/-- Witness for C10 at the default parameters with `k = 2`. -/
theorem scaling_in_base_cash_flow_witness :
    ((0 : ℚ) ≤ 2) ∧ ((3 : ℚ) / 100 < 10 / 100) ∧
    (s1Value ⟨2 * 10, 15, 10, 3⟩ = 2 * s1Value ⟨10, 15, 10, 3⟩ ∧
      tvValue ⟨2 * 10, 15, 10, 3⟩ = 2 * tvValue ⟨10, 15, 10, 3⟩ ∧
      totalValue ⟨2 * 10, 15, 10, 3⟩ = 2 * totalValue ⟨10, 15, 10, 3⟩ ∧
      totalValue ⟨2 * 10, 15, 10, 3⟩ * (7 / 10) =
        2 * (totalValue ⟨10, 15, 10, 3⟩ * (7 / 10)) ∧
      ((0 : ℚ) < 2 → (10 : ℚ) ≠ 0 →
        (valuationCore ⟨2 * 10, 15, 10, 3⟩).multiple =
          (valuationCore ⟨10, 15, 10, 3⟩).multiple) ∧
      ((0 : ℚ) < 2 → totalValue ⟨10, 15, 10, 3⟩ ≠ 0 →
        (valuationCore ⟨2 * 10, 15, 10, 3⟩).tvRatio =
          (valuationCore ⟨10, 15, 10, 3⟩).tvRatio)) :=
  ⟨by norm_num, by norm_num,
    scaling_in_base_cash_flow ⟨10, 15, 10, 3⟩ 2 (by norm_num) (by norm_num)⟩
